import Mathlib

/-!
# CoherenceRole controller: a shallow embedding

Embedding of `pkg/controller/coherencerole/coherencerole_controller.go`
(`Reconcile`, `createRole`, `updateRole`, `upgrade`, `failed` and their helpers).

* Objects passed by pointer and mutated (`role`, `existingRole`, `desiredRole`)
  are threaded explicitly: every operation returns the object as it is after
  the call.
* Calls on the object store and on the event recorder are recorded, in program
  order, in a trace of `Effect`s; whether a store call fails is decided by the
  environment `Env`.
* Everything the controller imports from `pkg/apis/coherence/v1` and the
  sibling `scale` method is a field of `Env`.
* Logging is not modelled.
-/

namespace CoherenceRoleController

/-! ## Data model -/

/-- A Go `error` value, with the one classification the controller asks for (`errors.IsNotFound`). -/
structure GoError where
  msg : String
  notFound : Bool
deriving DecidableEq, Repr

/-- The `reconcile.Result` struct. -/
structure Result where
  Requeue : Bool
  RequeueAfter : Nat
deriving DecidableEq, Repr

/-- The zero value `reconcile.Result{}`. -/
def Result.empty : Result := ⟨false, 0⟩

/-- The template parameters of a spec: every field other than the replica count. -/
abbrev TemplateParams := List (String × String)

/-- Status codes of a role (`coh.RoleStatus...`); `unset` is the zero value. -/
inductive RoleStatus where
  | unset
  | Created
  | RollingUpgrade
  | Ready
  | Failed
deriving DecidableEq, Repr

/-- The `CoherenceRoleStatus` struct. -/
structure CoherenceRoleStatus where
  Status : RoleStatus
  Replicas : Int
  CurrentReplicas : Int
  ReadyReplicas : Int
  Selector : String
deriving DecidableEq, Repr

/-- The `CoherenceRoleSpec` struct; it is read only through `GetReplicas` and `GetRoleName`. -/
structure CoherenceRoleSpec where
  Role : String
  Replicas : Option Int
  Params : TemplateParams
deriving DecidableEq, Repr

/-- The `CoherenceRole` resource. -/
structure CoherenceRole where
  Namespace : String
  Name : String
  Spec : CoherenceRoleSpec
  Status : CoherenceRoleStatus
deriving DecidableEq, Repr

/-- The `CoherenceCluster` resource. -/
structure CoherenceCluster where
  Namespace : String
  Name : String
  Params : TemplateParams
deriving DecidableEq, Repr

/-- The `CoherenceInternalSpec` struct: the replica count and all the other fields. -/
structure CoherenceInternalSpec where
  ClusterSize : Int
  Params : TemplateParams
deriving DecidableEq, Repr

/-- The typed `CoherenceInternal` resource. -/
structure CoherenceInternal where
  Namespace : String
  Name : String
  Spec : CoherenceInternalSpec
deriving DecidableEq, Repr

/-- The `spec` document of an unstructured CoherenceInternal: a `map[string]interface{}` holding,
by value, the fields of the spec it was serialized from. -/
structure SpecMap where
  fields : CoherenceInternalSpec
deriving DecidableEq, Repr

/-- An owner reference (kind and name of the owning object). -/
structure OwnerReference where
  Kind : String
  Name : String
deriving DecidableEq, Repr

/-- The part of `unstructured.Unstructured` the controller reads and writes. -/
structure Unstructured where
  Namespace : String
  Name : String
  Labels : List (String × String)
  Owner : Option OwnerReference
  Spec : Option SpecMap
deriving DecidableEq, Repr

/-- The `StatefulSetStatus` counters the controller reads. -/
structure StatefulSetStatus where
  Replicas : Int
  CurrentReplicas : Int
  ReadyReplicas : Int
deriving DecidableEq, Repr

/-- The `StatefulSet` resource. -/
structure StatefulSet where
  Status : StatefulSetStatus
deriving DecidableEq, Repr

/-! ## Go values under `reflect.DeepEqual` -/

/-- A Go value as `reflect.DeepEqual` sees it: a spec struct, or a non-nil pointer to a value.
The dynamic type of a value is its pointer depth over `CoherenceInternalSpec`. -/
inductive GoValue where
  | struct (s : CoherenceInternalSpec)
  | ptr (v : GoValue)
deriving DecidableEq, Repr

/-- The function `reflect.DeepEqual`: structs are equal field by field, pointers are equal when
they point to deeply equal values, and values of distinct types are never deeply equal. -/
def reflectDeepEqual : GoValue → GoValue → Bool
  | .struct a, .struct b => decide (a = b)
  | .ptr a, .ptr b => reflectDeepEqual a b
  | _, _ => false

/-! ## Environment: the API package, the object store, the sibling `scale` method -/

/-- What a call of `r.scale` leaves behind: its two return values and the role it was given. -/
structure ScaleOutcome where
  result : Result
  err : Option GoError
  role : CoherenceRole
deriving DecidableEq, Repr

/-- Everything the controller file uses but does not define. -/
structure Env where
  /-- The method `CoherenceRoleSpec.GetReplicas`. -/
  GetReplicas : CoherenceRoleSpec → Int
  /-- The method `CoherenceRoleSpec.GetRoleName`. -/
  GetRoleName : CoherenceRoleSpec → String
  /-- The merge `coh.NewCoherenceInternalSpec(cluster, role)`. -/
  NewCoherenceInternalSpec : CoherenceCluster → CoherenceRole → CoherenceInternalSpec
  /-- The merge as a map, `coh.NewCoherenceInternalSpecAsMap(cluster, role)`. -/
  NewCoherenceInternalSpecAsMap : CoherenceCluster → CoherenceRole → Except GoError SpecMap
  /-- Whether serializing a spec to a map fails. -/
  marshalErr : CoherenceInternalSpec → Option GoError
  /-- The label key `coh.CoherenceClusterLabel`. -/
  CoherenceClusterLabel : String
  /-- The label key `coh.CoherenceRoleLabel`. -/
  CoherenceRoleLabel : String
  /-- Whether `CoherenceInternalSpec.DeepCopy` returns `*CoherenceInternalSpec` (as the methods
  generated by deepcopy-gen do) rather than a struct value. -/
  deepCopyIsPointer : Bool
  /-- Whether marshalling and decoding an unstructured object into a CoherenceInternal fails. -/
  decodeErr : Unstructured → Option GoError
  /-- Whether `controllerutil.SetControllerReference` fails. -/
  setControllerReferenceErr : OwnerReference → Unstructured → Option GoError
  /-- Outcome of `r.client.Create` on a CoherenceInternal. -/
  clientCreate : Unstructured → Option GoError
  /-- Outcome of `r.client.Update` on a CoherenceInternal. -/
  clientUpdate : Unstructured → Option GoError
  /-- Outcome of `r.client.Update` on a role. -/
  clientUpdateRole : CoherenceRole → Option GoError
  /-- Outcome of `r.client.Status().Update` on a role. -/
  clientStatusUpdate : CoherenceRole → Option GoError
  /-- Outcome of `r.client.Get` of the StatefulSet with the given namespace and name. -/
  clientGetStatefulSet : String → String → Except GoError StatefulSet
  /-- Outcome of `r.client.Get` of the CoherenceRole with the given namespace and name. -/
  clientGetRole : String → String → Except GoError CoherenceRole
  /-- Outcome of `r.client.Get` of the CoherenceCluster with the given namespace and name. -/
  clientGetCluster : String → String → Except GoError CoherenceCluster
  /-- Outcome of `r.client.Get` of the CoherenceInternal with the given namespace and name. -/
  clientGetHelmValues : String → String → Except GoError Unstructured
  /-- The method `CoherenceRole.GetCoherenceClusterName`. -/
  GetCoherenceClusterName : CoherenceRole → String
  /-- The method `r.scale(role, helmValues, existing, desiredReplicas, currentReplicas, sts)`. -/
  scale : CoherenceRole → Unstructured → CoherenceInternal → Int → Int → Option StatefulSet →
    ScaleOutcome

/-- One observable step of a reconcile cycle. Store calls carry the object sent and the error
returned (`none` for success). -/
inductive Effect where
  | create (obj : Unstructured) (err : Option GoError)
  | update (obj : Unstructured) (err : Option GoError)
  | updateRole (role : CoherenceRole) (err : Option GoError)
  | statusUpdate (role : CoherenceRole) (err : Option GoError)
  | event (ns name eventtype reason message : String)
  | callUpgrade (replicas : Int) (desiredRole : CoherenceInternalSpec)
  | callScale (desiredReplicas currentReplicas : Int)
deriving DecidableEq, Repr

/-- What a call of `createRole` or `updateRole` leaves behind: the two return values, the role
object after the call, and the effects in program order. -/
structure Outcome where
  result : Result
  err : Option GoError
  role : CoherenceRole
  trace : List Effect
deriving DecidableEq, Repr

/-- What a call of `failed` leaves behind; `role` is the role it was handed, if any. -/
structure FailedOutcome where
  result : Result
  err : Option GoError
  role : Option CoherenceRole
  trace : List Effect
deriving DecidableEq, Repr

/-- What a call of `upgrade` leaves behind: the return values and the three objects it was
handed by pointer. -/
structure UpgradeOutcome where
  result : Result
  err : Option GoError
  role : CoherenceRole
  existingRole : Unstructured
  desiredRole : CoherenceInternalSpec
  trace : List Effect
deriving DecidableEq, Repr

/-- The key of a reconcile request. -/
structure Request where
  Namespace : String
  Name : String
deriving DecidableEq, Repr

/-- What a call of `Reconcile` leaves behind; `role` is the role it fetched, if it got one. -/
structure ReconcileOutcome where
  result : Result
  err : Option GoError
  role : Option CoherenceRole
  trace : List Effect
deriving DecidableEq, Repr

/-! ## Constants -/

/-- The format `invalidRoleEventMessage`, applied. -/
def invalidRoleEventMessage (a b : String) : String :=
  "invalid CoherenceRole '" ++ a ++ "' cannot find parent CoherenceCluster '" ++ b ++ "'"

/-- The format `failedToGetHelmValuesMessage`, applied. -/
def failedToGetHelmValuesMessage (a e : String) : String :=
  "Failed to get Helm values for CoherenceRole " ++ a ++ " failed\n" ++ e

/-- The format `failedToGetParentCluster`, applied. -/
def failedToGetParentCluster (a b e : String) : String :=
  "Failed to get parent CoherenceCluster " ++ a ++ " for CoherenceRole " ++ b ++ " failed\n" ++ e

/-- The format `failedToReconcileRole`, applied. -/
def failedToReconcileRole (a e : String) : String :=
  "Failed to reconcile CoherenceRole " ++ a ++ " due to error\n" ++ e

/-- The format `createMessage`, applied. -/
def createMessage (a b : String) : String :=
  "created CoherenceInternal '" ++ a ++ "' from CoherenceRole '" ++ b ++ "' successful"

/-- The format `createFailedMessage`, applied. -/
def createFailedMessage (a b e : String) : String :=
  "create CoherenceInternal '" ++ a ++ "' from CoherenceRole '" ++ b ++ "' failed\n" ++ e

/-- The format `updateMessage`, applied. -/
def updateMessage (a b : String) : String :=
  "updated CoherenceInternal " ++ a ++ " from CoherenceRole " ++ b ++ " successful"

/-- The format `updateFailedMessage`, applied. -/
def updateFailedMessage (a b e : String) : String :=
  "update CoherenceInternal " ++ a ++ " from CoherenceRole " ++ b ++ " failed\n" ++ e

/-- The format `selectorTemplate`, applied. -/
def selectorTemplate (cluster role : String) : String :=
  "coherenceCluster=" ++ cluster ++ ",coherenceRole=" ++ role

def eventReasonFailed : String := "failed"

def eventReasonCreated : String := "SuccessfulCreate"

def eventReasonUpdated : String := "SuccessfulUpdate"

/-- The constant `corev1.EventTypeNormal`. -/
def EventTypeNormal : String := "Normal"

/-! ## Helpers of the controller -/

/-- Assignment `labels[k] = v` on a Go map, kept as an association list. -/
def setLabel (labels : List (String × String)) (k v : String) : List (String × String) :=
  (labels.filter fun kv => kv.1 != k) ++ [(k, v)]

/-- Lookup `labels[k]` on a Go map. -/
def getLabel (labels : List (String × String)) (k : String) : Option String :=
  (labels.find? fun kv => kv.1 == k).map Prod.snd

/-- The method `CreateEmptyHelmValues` for a non-nil role: an unstructured object with the
namespace and name of the role and nothing else. -/
def CreateEmptyHelmValues (role : CoherenceRole) : Unstructured :=
  { Namespace := role.Namespace, Name := role.Name, Labels := [], Owner := none, Spec := none }

/-- The method `CreateHelmValues`. -/
def CreateHelmValues (env : Env) (cluster : CoherenceCluster) (role : CoherenceRole)
    (spec : SpecMap) : Unstructured :=
  let cohInternal := { CreateEmptyHelmValues role with Spec := some spec }
  let labels := setLabel [] env.CoherenceClusterLabel cluster.Name
  let labels := setLabel labels env.CoherenceRoleLabel (env.GetRoleName role.Spec)
  { cohInternal with Labels := labels }

/-- The owner reference that designates a CoherenceCluster. -/
def ownerOfCluster (cluster : CoherenceCluster) : OwnerReference :=
  { Kind := "CoherenceCluster", Name := cluster.Name }

/-- The owner reference that designates a CoherenceRole. -/
def ownerOfRole (role : CoherenceRole) : OwnerReference :=
  { Kind := "CoherenceRole", Name := role.Name }

/-- The library call `controllerutil.SetControllerReference(owner, object, scheme)`: on success
the object carries a controller reference to the owner. -/
def SetControllerReference (env : Env) (owner : OwnerReference) (object : Unstructured) :
    Except GoError Unstructured :=
  match env.setControllerReferenceErr owner object with
  | some err => .error err
  | none => .ok { object with Owner := some owner }

/-- The method `toCoherenceInternal`: marshal the unstructured object and decode it into the
typed struct; a missing `spec` decodes to the zero spec. -/
def toCoherenceInternal (env : Env) (state : Unstructured) : Except GoError CoherenceInternal :=
  match env.decodeErr state with
  | some err => .error err
  | none =>
    .ok { Namespace := state.Namespace, Name := state.Name,
          Spec := match state.Spec with
            | some m => m.fields
            | none => { ClusterSize := 0, Params := [] } }

/-- Modelled from the spec: `coh.CoherenceInternalSpecAsMapFromSpec` is declared outside the
controller file; it serializes the spec it is given, as the spec is at the time of the call,
and fails only on a serialization error. -/
def CoherenceInternalSpecAsMapFromSpec (env : Env) (spec : CoherenceInternalSpec) :
    Except GoError SpecMap :=
  match env.marshalErr spec with
  | some err => .error err
  | none => .ok { fields := spec }

/-- The method `findStatefulSet`: the StatefulSet named like the role, or nil with the error. -/
def findStatefulSet (env : Env) (role : CoherenceRole) : Except GoError StatefulSet :=
  env.clientGetStatefulSet role.Namespace role.Name

/-- The method `failed`, the common error handler: with a role, set its status to Failed, update
the status in the store (an error there is only logged) and send a failure event; then return
the requeue directive asked for, always with a nil error. -/
def failed (env : Env) (_err : Option GoError) (role : Option CoherenceRole) (msg : String)
    (requeue : Bool) : FailedOutcome :=
  let result : Result := if requeue then { Requeue := true, RequeueAfter := 0 }
    else { Requeue := false, RequeueAfter := 0 }
  match role with
  | some role =>
    let role := { role with Status := { role.Status with Status := RoleStatus.Failed } }
    let e := env.clientStatusUpdate role
    { result := result, err := none, role := some role,
      trace := [Effect.statusUpdate role e,
                Effect.event role.Namespace role.Name EventTypeNormal eventReasonFailed msg] }
  | none => { result := result, err := none, role := none, trace := [] }

/-- The method `handleErrAndRequeue`. -/
def handleErrAndRequeue (env : Env) (err : Option GoError) (role : Option CoherenceRole)
    (msg : String) : FailedOutcome :=
  failed env err role msg true

/-- The method `handleErrAndFinish`. -/
def handleErrAndFinish (env : Env) (err : Option GoError) (role : Option CoherenceRole)
    (msg : String) : FailedOutcome :=
  failed env err role msg false

/-- Return from a caller that handed `failed` a nil role: the caller's role is untouched. -/
def Outcome.ofFailed (role : CoherenceRole) (before : List Effect) (f : FailedOutcome) : Outcome :=
  { result := f.result, err := f.err, role := role, trace := before ++ f.trace }

/-! ## createRole -/

/-- The method `createRole`. -/
def createRole (env : Env) (cluster : CoherenceCluster) (role : CoherenceRole) : Outcome :=
  if env.GetReplicas role.Spec ≤ 0 then
    { result := Result.empty, err := none, role := role, trace := [] }
  else
    match env.NewCoherenceInternalSpecAsMap cluster role with
    | .error err =>
      Outcome.ofFailed role []
        (handleErrAndRequeue env (some err) none (createFailedMessage role.Name role.Name err.msg))
    | .ok spec =>
      let helmValues := CreateHelmValues env cluster role spec
      match SetControllerReference env (ownerOfCluster cluster) helmValues with
      | .error err =>
        Outcome.ofFailed role []
          (handleErrAndRequeue env (some err) none
            (createFailedMessage helmValues.Name role.Name err.msg))
      | .ok helmValues =>
        match env.clientCreate helmValues with
        | some err =>
          Outcome.ofFailed role [Effect.create helmValues (some err)]
            (handleErrAndRequeue env (some err) none
              (createFailedMessage helmValues.Name role.Name err.msg))
        | none =>
          let role := { role with Status := { role.Status with
            Status := RoleStatus.Created
            Replicas := env.GetReplicas role.Spec
            Selector := selectorTemplate cluster.Name (env.GetRoleName role.Spec) } }
          let e := env.clientStatusUpdate role
          { result := { Requeue := false, RequeueAfter := 0 }, err := none, role := role,
            trace := [Effect.create helmValues none, Effect.statusUpdate role e,
                      Effect.event role.Namespace role.Name EventTypeNormal eventReasonCreated
                        (createMessage helmValues.Name role.Name)] }

/-! ## upgrade -/

/-- The method `upgrade`. The map `spec` is made from `desiredRole` before the assignment
`desiredRole.ClusterSize = replicas`. -/
def upgrade (env : Env) (role : CoherenceRole) (existingRole : Unstructured) (replicas : Int)
    (desiredRole : CoherenceInternalSpec) : UpgradeOutcome :=
  match CoherenceInternalSpecAsMapFromSpec env desiredRole with
  | .error err =>
    { result := Result.empty, err := some err, role := role, existingRole := existingRole,
      desiredRole := desiredRole, trace := [] }
  | .ok spec =>
    let desiredRole := { desiredRole with ClusterSize := replicas }
    let existingRole := { existingRole with Spec := some spec }
    match env.clientUpdate existingRole with
    | some err =>
      { result := Result.empty, err := some err, role := role, existingRole := existingRole,
        desiredRole := desiredRole, trace := [Effect.update existingRole (some err)] }
    | none =>
      let role := { role with Status := { role.Status with Status := RoleStatus.RollingUpgrade } }
      let e := env.clientUpdateRole role
      { result := { Requeue := false, RequeueAfter := 0 }, err := none, role := role,
        existingRole := existingRole, desiredRole := desiredRole,
        trace := [Effect.update existingRole none, Effect.updateRole role e,
                  Effect.event role.Namespace role.Name EventTypeNormal eventReasonUpdated
                    (updateMessage role.Name role.Name)] }

/-! ## updateRole -/

/-- The value of the variable `clone` after `clone := existing.Spec.DeepCopy()` and
`clone.ClusterSize = desiredRole.ClusterSize`. -/
def cloneValue (env : Env) (existing : CoherenceInternal) (desiredRole : CoherenceInternalSpec) :
    GoValue :=
  let copy : CoherenceInternalSpec := { existing.Spec with ClusterSize := desiredRole.ClusterSize }
  if env.deepCopyIsPointer then GoValue.ptr (GoValue.struct copy) else GoValue.struct copy

/-- The variable `isUpgrade` of `updateRole`: `!reflect.DeepEqual(&clone, desiredRole)`, where
`desiredRole` is a `*CoherenceInternalSpec`. -/
def isUpgrade (env : Env) (existing : CoherenceInternal) (desiredRole : CoherenceInternalSpec) :
    Bool :=
  !reflectDeepEqual (GoValue.ptr (cloneValue env existing desiredRole))
    (GoValue.ptr (GoValue.struct desiredRole))

/-- The last branch of `updateRole` (`else if sts != nil`): bring the recorded replica counts of
the role in line with the StatefulSet. -/
def syncStatus (env : Env) (role : CoherenceRole) (desiredReplicas : Int) (sts : StatefulSet) :
    Outcome :=
  if role.Status.CurrentReplicas ≠ sts.Status.Replicas ∨
      role.Status.ReadyReplicas ≠ sts.Status.ReadyReplicas then
    let status := { role.Status with
      CurrentReplicas := sts.Status.CurrentReplicas
      ReadyReplicas := sts.Status.ReadyReplicas }
    let status := if sts.Status.ReadyReplicas = desiredReplicas then
      { status with Status := RoleStatus.Ready } else status
    let role := { role with Status := status }
    let e := env.clientStatusUpdate role
    { result := { Requeue := false, RequeueAfter := 0 }, err := none, role := role,
      trace := [Effect.statusUpdate role e] }
  else
    { result := { Requeue := false, RequeueAfter := 0 }, err := none, role := role, trace := [] }

/-- The method `updateRole`. -/
def updateRole (env : Env) (cluster : CoherenceCluster) (role : CoherenceRole)
    (helmValues : Unstructured) : Outcome :=
  match toCoherenceInternal env helmValues with
  | .error err =>
    Outcome.ofFailed role []
      (handleErrAndRequeue env (some err) none
        (updateFailedMessage helmValues.Name role.Name err.msg))
  | .ok existing =>
    let currentReplicas := existing.Spec.ClusterSize
    let desiredReplicas := env.GetReplicas role.Spec
    let desiredRole := env.NewCoherenceInternalSpec cluster role
    let isUp := isUpgrade env existing desiredRole
    let sts := (findStatefulSet env role).toOption
    if currentReplicas < desiredReplicas then
      if isUp then
        let u := upgrade env role helmValues currentReplicas desiredRole
        match u.err with
        | none =>
          { result := { Requeue := true, RequeueAfter := 0 }, err := none, role := u.role,
            trace := Effect.callUpgrade currentReplicas desiredRole :: u.trace }
        | some err =>
          { result := u.result, err := some err, role := u.role,
            trace := Effect.callUpgrade currentReplicas desiredRole :: u.trace }
      else
        let s := env.scale role helmValues existing desiredReplicas currentReplicas sts
        { result := s.result, err := s.err, role := s.role,
          trace := [Effect.callScale desiredReplicas currentReplicas] }
    else if currentReplicas > desiredReplicas then
      let s := env.scale role helmValues existing desiredReplicas currentReplicas sts
      if s.err = none ∧ isUp = true then
        { result := { Requeue := true, RequeueAfter := 0 }, err := none, role := s.role,
          trace := [Effect.callScale desiredReplicas currentReplicas] }
      else
        { result := s.result, err := s.err, role := s.role,
          trace := [Effect.callScale desiredReplicas currentReplicas] }
    else if isUp then
      let u := upgrade env role helmValues currentReplicas desiredRole
      { result := u.result, err := u.err, role := u.role,
        trace := Effect.callUpgrade currentReplicas desiredRole :: u.trace }
    else
      match sts with
      | some sts => syncStatus env role desiredReplicas sts
      | none =>
        { result := { Requeue := false, RequeueAfter := 0 }, err := none, role := role,
          trace := [] }

/-! ## Reconcile -/

/-- The method `GetExistingHelmValues`. -/
def GetExistingHelmValues (env : Env) (role : CoherenceRole) : Except GoError Unstructured :=
  env.clientGetHelmValues role.Namespace role.Name

/-- Return from `Reconcile` through the error handler. -/
def ReconcileOutcome.ofFailed (f : FailedOutcome) : ReconcileOutcome :=
  { result := f.result, err := f.err, role := f.role, trace := f.trace }

/-- Return from `Reconcile` through `createRole` or `updateRole`. -/
def ReconcileOutcome.ofOutcome (o : Outcome) : ReconcileOutcome :=
  { result := o.result, err := o.err, role := some o.role, trace := o.trace }

/-- The method `Reconcile`. -/
def Reconcile (env : Env) (request : Request) : ReconcileOutcome :=
  match env.clientGetRole request.Namespace request.Name with
  | .error err =>
    if err.notFound then
      { result := { Requeue := false, RequeueAfter := 0 }, err := none, role := none, trace := [] }
    else
      ReconcileOutcome.ofFailed
        (handleErrAndRequeue env (some err) none (failedToReconcileRole "" err.msg))
  | .ok role =>
    let clusterName := env.GetCoherenceClusterName role
    match env.clientGetCluster request.Namespace clusterName with
    | .error err =>
      if err.notFound then
        ReconcileOutcome.ofFailed
          (handleErrAndFinish env none (some role) (invalidRoleEventMessage role.Name clusterName))
      else
        ReconcileOutcome.ofFailed
          (handleErrAndRequeue env (some err) (some role)
            (failedToGetParentCluster clusterName role.Name err.msg))
    | .ok cluster =>
      match GetExistingHelmValues env role with
      | .error err =>
        if err.notFound then
          ReconcileOutcome.ofOutcome (createRole env cluster role)
        else
          ReconcileOutcome.ofFailed
            (handleErrAndRequeue env (some err) (some role)
              (failedToGetHelmValuesMessage role.Name err.msg))
      | .ok helmValues => ReconcileOutcome.ofOutcome (updateRole env cluster role helmValues)

/-! ## Reading a trace -/

/-- Is this step an invocation of `upgrade`? -/
def Effect.isUpgradeCall : Effect → Bool
  | .callUpgrade _ _ => true
  | _ => false

/-- Is this step an invocation of `scale`? -/
def Effect.isScaleCall : Effect → Bool
  | .callScale _ _ => true
  | _ => false

/-- Is this step a store create of a CoherenceInternal? -/
def Effect.isCreate : Effect → Bool
  | .create _ _ => true
  | _ => false

/-- Is this step a write to the object store (create, update, role update, status update)? -/
def Effect.isStoreWrite : Effect → Bool
  | .create _ _ => true
  | .update _ _ => true
  | .updateRole _ _ => true
  | .statusUpdate _ _ => true
  | _ => false

/-- Is this step a write of the role (its status subresource or the whole object)? -/
def Effect.isRoleWrite : Effect → Bool
  | .updateRole _ _ => true
  | .statusUpdate _ _ => true
  | _ => false

/-- Is this step an event? -/
def Effect.isEvent : Effect → Bool
  | .event _ _ _ _ _ => true
  | _ => false

/-- Is this step an event with the given reason? -/
def Effect.isEventWithReason (reason : String) : Effect → Bool
  | .event _ _ _ r _ => r == reason
  | _ => false

/-! ## A concrete world -/

/-- An environment in which no write fails: replicas default to 3, the merge appends the role
parameters to the cluster parameters, `DeepCopy` is the generated method (pointer result),
`scale` returns the empty result, and the store holds a StatefulSet but no role, cluster or
CoherenceInternal. -/
def sampleEnv : Env where
  GetReplicas := fun s => s.Replicas.getD 3
  GetRoleName := fun s => s.Role
  NewCoherenceInternalSpec := fun c r =>
    { ClusterSize := r.Spec.Replicas.getD 3, Params := c.Params ++ r.Spec.Params }
  NewCoherenceInternalSpecAsMap := fun c r =>
    .ok { fields := { ClusterSize := r.Spec.Replicas.getD 3, Params := c.Params ++ r.Spec.Params } }
  marshalErr := fun _ => none
  CoherenceClusterLabel := "coherenceCluster"
  CoherenceRoleLabel := "coherenceRole"
  deepCopyIsPointer := true
  decodeErr := fun _ => none
  setControllerReferenceErr := fun _ _ => none
  clientCreate := fun _ => none
  clientUpdate := fun _ => none
  clientUpdateRole := fun _ => none
  clientStatusUpdate := fun _ => none
  clientGetStatefulSet := fun _ _ =>
    .ok { Status := { Replicas := 3, CurrentReplicas := 3, ReadyReplicas := 3 } }
  clientGetRole := fun _ name => .error { msg := "role " ++ name ++ " not found", notFound := true }
  clientGetCluster := fun _ name =>
    .error { msg := "cluster " ++ name ++ " not found", notFound := true }
  clientGetHelmValues := fun _ name =>
    .error { msg := "values " ++ name ++ " not found", notFound := true }
  GetCoherenceClusterName := fun _ => "prod"
  scale := fun role _ _ _ _ _ => { result := Result.empty, err := none, role := role }

/-- A store error. -/
def sampleError : GoError := { msg := "conflict", notFound := false }

/-- A cluster with one default parameter. -/
def sampleCluster : CoherenceCluster :=
  { Namespace := "ns", Name := "prod", Params := [("image", "coherence:1")] }

/-- The zero status. -/
def emptyStatus : CoherenceRoleStatus :=
  { Status := RoleStatus.unset, Replicas := 0, CurrentReplicas := 0, ReadyReplicas := 0,
    Selector := "" }

/-- A role of the sample cluster with the given desired replica count. -/
def sampleRole (replicas : Int) : CoherenceRole :=
  { Namespace := "ns", Name := "prod-storage",
    Spec := { Role := "storage", Replicas := some replicas, Params := [("heap", "4g")] },
    Status := emptyStatus }

/-- The stored CoherenceInternal of the sample role, with the given replica count and parameters. -/
def sampleHelmValues (size : Int) (params : TemplateParams) : Unstructured :=
  { Namespace := "ns", Name := "prod-storage", Labels := [], Owner := none,
    Spec := some { fields := { ClusterSize := size, Params := params } } }

/-- The parameters the sample merge gives for the sample cluster and role. -/
def mergedParams : TemplateParams := [("image", "coherence:1"), ("heap", "4g")]

/-- The sample role once settled: its recorded counts are those of the sample StatefulSet. -/
def settledRole : CoherenceRole :=
  { sampleRole 3 with
    Status := { Status := RoleStatus.Ready, Replicas := 3, CurrentReplicas := 3,
                ReadyReplicas := 3, Selector := "coherenceCluster=prod,coherenceRole=storage" } }

/-- The sample environment with a merge that fails. -/
def failingMergeEnv : Env :=
  { sampleEnv with NewCoherenceInternalSpecAsMap := fun _ _ => Except.error sampleError }

/-- The sample environment with a store that refuses every write of a role. -/
def failingRoleWriteEnv : Env :=
  { sampleEnv with
    clientStatusUpdate := fun _ => some sampleError
    clientUpdateRole := fun _ => some sampleError }

/-- A store that holds the given role, the sample cluster and the given CoherenceInternal. -/
def storedWorld (base : Env) (role : CoherenceRole) (helmValues : Unstructured) : Env :=
  { base with
    clientGetRole := fun _ _ => .ok role
    clientGetCluster := fun _ _ => .ok sampleCluster
    clientGetHelmValues := fun _ _ => .ok helmValues }

/-- The request for the sample role. -/
def sampleRequest : Request := { Namespace := "ns", Name := "prod-storage" }

/-! ## Independence of the recorded status -/

/-- Is this step a write of a CoherenceInternal (create or update)? -/
def Effect.isInternalWrite : Effect → Bool
  | .create _ _ => true
  | .update _ _ => true
  | _ => false

/-- Is this step an update of the status of the role (`r.client.Status().Update`)? -/
def Effect.isStatusUpdate : Effect → Bool
  | .statusUpdate _ _ => true
  | _ => false

/-- The replica count of the spec that a write of a CoherenceInternal sends to the store. -/
def Effect.storedClusterSize : Effect → Option Int
  | .create obj _ => obj.Spec.map fun m => m.fields.ClusterSize
  | .update obj _ => obj.Spec.map fun m => m.fields.ClusterSize
  | _ => none

/-- The step with the content of the role status left out: in a write of the role the Status
written and the answer of the store are blanked; every other step is kept as it is. -/
def Effect.withoutStatus : Effect → Effect
  | .updateRole role _ => .updateRole { role with Status := emptyStatus } none
  | .statusUpdate role _ => .statusUpdate { role with Status := emptyStatus } none
  | e => e

/-- Two roles that differ at most in their Status. -/
def SameButStatus (r1 r2 : CoherenceRole) : Prop :=
  r1.Namespace = r2.Namespace ∧ r1.Name = r2.Name ∧ r1.Spec = r2.Spec

/-- Two outcomes of the role lookup that differ at most in the Status of the role found. -/
def FetchAgree : Except GoError CoherenceRole → Except GoError CoherenceRole → Prop
  | .ok r1, .ok r2 => SameButStatus r1 r2
  | .error e1, .error e2 => e1 = e2
  | _, _ => False

/-- The functions declared outside the controller file that are handed the role do not read its
Status: the cluster name, the two merges, and the result and error of `scale`. -/
structure StatusBlind (env : Env) : Prop where
  clusterName : ∀ r1 r2, SameButStatus r1 r2 →
    env.GetCoherenceClusterName r1 = env.GetCoherenceClusterName r2
  merge : ∀ c r1 r2, SameButStatus r1 r2 →
    env.NewCoherenceInternalSpec c r1 = env.NewCoherenceInternalSpec c r2
  mergeAsMap : ∀ c r1 r2, SameButStatus r1 r2 →
    env.NewCoherenceInternalSpecAsMap c r1 = env.NewCoherenceInternalSpecAsMap c r2
  scale : ∀ r1 r2 hv ex d c sts, SameButStatus r1 r2 →
    (env.scale r1 hv ex d c sts).result = (env.scale r2 hv ex d c sts).result ∧
    (env.scale r1 hv ex d c sts).err = (env.scale r2 hv ex d c sts).err

/-! ## The upgrade test -/

/-- A pointer to a pointer to a spec is never deeply equal to a pointer to a spec. -/
theorem reflectDeepEqual_depth_mismatch (a b : CoherenceInternalSpec) :
    reflectDeepEqual (GoValue.ptr (GoValue.ptr (GoValue.struct a)))
      (GoValue.ptr (GoValue.struct b)) = false := by
  simp [reflectDeepEqual]

/-- With the generated `DeepCopy` (pointer result) `isUpgrade` is true on every input. -/
theorem isUpgrade_of_pointer_copy (env : Env) (existing : CoherenceInternal)
    (desiredRole : CoherenceInternalSpec) (h : env.deepCopyIsPointer = true) :
    isUpgrade env existing desiredRole = true := by
  simp [isUpgrade, cloneValue, h, reflectDeepEqual]

/-- Were `DeepCopy` to return a struct value, `isUpgrade` would be the comparison of the fields
other than the replica count. -/
theorem isUpgrade_of_value_copy (env : Env) (existing : CoherenceInternal)
    (desiredRole : CoherenceInternalSpec) (h : env.deepCopyIsPointer = false) :
    isUpgrade env existing desiredRole = decide (existing.Spec.Params ≠ desiredRole.Params) := by
  cases desiredRole with
  | mk size params =>
    by_cases hp : existing.Spec.Params = params <;>
      simp [isUpgrade, cloneValue, h, reflectDeepEqual, hp]

/-- C1, the code at a pure scale: the stored spec (2 replicas) agrees with the freshly merged
spec (5 replicas) in every field other than ClusterSize, and `isUpgrade` is nevertheless true,
because `&clone` is a pointer to a pointer. -/
theorem isUpgrade_true_on_pure_scale :
    (sampleEnv.NewCoherenceInternalSpec sampleCluster (sampleRole 5)).Params = mergedParams ∧
    (sampleEnv.NewCoherenceInternalSpec sampleCluster (sampleRole 5)).ClusterSize = 5 ∧
    isUpgrade sampleEnv
      { Namespace := "ns", Name := "prod-storage",
        Spec := { ClusterSize := 2, Params := mergedParams } }
      (sampleEnv.NewCoherenceInternalSpec sampleCluster (sampleRole 5)) = true := by
  decide

/-! ## upgrade -/

/-- The steps of `upgrade` contain no invocation of `upgrade` or `scale`. -/
theorem upgrade_trace_no_calls (env : Env) (role : CoherenceRole) (existingRole : Unstructured)
    (replicas : Int) (desiredRole : CoherenceInternalSpec) :
    (upgrade env role existingRole replicas desiredRole).trace.countP Effect.isUpgradeCall = 0 ∧
    (upgrade env role existingRole replicas desiredRole).trace.countP Effect.isScaleCall = 0 := by
  unfold upgrade CoherenceInternalSpecAsMapFromSpec
  cases env.marshalErr desiredRole with
  | some e => simp
  | none =>
    simp only []
    cases env.clientUpdate { existingRole with Spec := some { fields := desiredRole } } with
    | some e => simp [Effect.isUpgradeCall, Effect.isScaleCall]
    | none => simp [Effect.isUpgradeCall, Effect.isScaleCall]

/-- When serialization succeeds, the spec `upgrade` writes into `existingRole` and sends to the
store is `desiredRole` as it was handed in: the `replicas` argument does not reach it. -/
theorem upgrade_stored_spec (env : Env) (role : CoherenceRole) (existingRole : Unstructured)
    (replicas : Int) (desiredRole : CoherenceInternalSpec)
    (hm : env.marshalErr desiredRole = none) :
    (upgrade env role existingRole replicas desiredRole).existingRole =
      { existingRole with Spec := some { fields := desiredRole } } ∧
    (upgrade env role existingRole replicas desiredRole).trace.head? =
      some (Effect.update { existingRole with Spec := some { fields := desiredRole } }
        (env.clientUpdate { existingRole with Spec := some { fields := desiredRole } })) := by
  unfold upgrade CoherenceInternalSpecAsMapFromSpec
  simp only [hm]
  cases h : env.clientUpdate { existingRole with Spec := some { fields := desiredRole } } with
  | some e => simp
  | none => simp

/-- C3, the code on scenario C (stored replicas 2, desired 5, template changed): `upgrade` is
called with `replicas = 2`, its store update succeeds, and the spec it stores has ClusterSize 5. -/
theorem upgrade_stores_desired_replica_count :
    (upgrade sampleEnv (sampleRole 5) (sampleHelmValues 2 [("image", "coherence:0")]) 2
        { ClusterSize := 5, Params := mergedParams }).err = none ∧
    (upgrade sampleEnv (sampleRole 5) (sampleHelmValues 2 [("image", "coherence:0")]) 2
        { ClusterSize := 5, Params := mergedParams }).existingRole.Spec =
      some { fields := { ClusterSize := 5, Params := mergedParams } } ∧
    (upgrade sampleEnv (sampleRole 5) (sampleHelmValues 2 [("image", "coherence:0")]) 2
        { ClusterSize := 5, Params := mergedParams }).trace.head? =
      some (Effect.update (sampleHelmValues 5 mergedParams) none) ∧
    (updateRole sampleEnv sampleCluster (sampleRole 5)
        (sampleHelmValues 2 [("image", "coherence:0")])).trace.take 2 =
      [Effect.callUpgrade 2 { ClusterSize := 5, Params := mergedParams },
       Effect.update (sampleHelmValues 5 mergedParams) none] := by
  decide

/-! ## updateRole: the ordering policy -/

/-- C2, the code on a settled world: the stored spec equals the freshly merged spec, its replica
count equals the desired one, the recorded counts equal those of the StatefulSet; `updateRole`
nevertheless invokes `upgrade`, writes the CoherenceInternal and the role, sets the status to
RollingUpgrade and emits an event. -/
theorem updateRole_settled_world_upgrades :
    toCoherenceInternal sampleEnv (sampleHelmValues 3 mergedParams) =
      Except.ok { Namespace := "ns", Name := "prod-storage",
                  Spec := sampleEnv.NewCoherenceInternalSpec sampleCluster settledRole } ∧
    findStatefulSet sampleEnv settledRole =
      Except.ok { Status := { Replicas := 3, CurrentReplicas := 3, ReadyReplicas := 3 } } ∧
    sampleEnv.GetReplicas settledRole.Spec = 3 ∧
    settledRole.Status.CurrentReplicas = 3 ∧ settledRole.Status.ReadyReplicas = 3 ∧
    (updateRole sampleEnv sampleCluster settledRole
      (sampleHelmValues 3 mergedParams)).trace.countP Effect.isUpgradeCall = 1 ∧
    (updateRole sampleEnv sampleCluster settledRole
      (sampleHelmValues 3 mergedParams)).trace.countP Effect.isStoreWrite = 2 ∧
    (updateRole sampleEnv sampleCluster settledRole
      (sampleHelmValues 3 mergedParams)).trace.countP Effect.isEvent = 1 ∧
    (updateRole sampleEnv sampleCluster settledRole
      (sampleHelmValues 3 mergedParams)).role.Status.Status = RoleStatus.RollingUpgrade := by
  refine ⟨rfl, rfl, ?_⟩
  decide

/-- C4. Scale up together with an upgrade: when the stored replica count is below the desired
one and `isUpgrade` is true, the steps of `updateRole` are one invocation of `upgrade` (at the
stored replica count) followed by the steps of that invocation, with no invocation of `scale`;
if `upgrade` returns no error the result is Requeue=true with a nil error, and if it returns an
error that error and the result of `upgrade` are returned as they are. -/
theorem updateRole_scale_up_with_upgrade (env : Env) (cluster : CoherenceCluster)
    (role : CoherenceRole) (helmValues : Unstructured) (existing : CoherenceInternal)
    (hdec : toCoherenceInternal env helmValues = Except.ok existing)
    (hlt : existing.Spec.ClusterSize < env.GetReplicas role.Spec)
    (hup : isUpgrade env existing (env.NewCoherenceInternalSpec cluster role) = true) :
    (updateRole env cluster role helmValues).trace =
      Effect.callUpgrade existing.Spec.ClusterSize (env.NewCoherenceInternalSpec cluster role) ::
        (upgrade env role helmValues existing.Spec.ClusterSize
          (env.NewCoherenceInternalSpec cluster role)).trace ∧
    (updateRole env cluster role helmValues).trace.countP Effect.isUpgradeCall = 1 ∧
    (updateRole env cluster role helmValues).trace.countP Effect.isScaleCall = 0 ∧
    ((upgrade env role helmValues existing.Spec.ClusterSize
          (env.NewCoherenceInternalSpec cluster role)).err = none →
      (updateRole env cluster role helmValues).result = { Requeue := true, RequeueAfter := 0 } ∧
      (updateRole env cluster role helmValues).err = none) ∧
    (∀ e, (upgrade env role helmValues existing.Spec.ClusterSize
          (env.NewCoherenceInternalSpec cluster role)).err = some e →
      (updateRole env cluster role helmValues).err = some e ∧
      (updateRole env cluster role helmValues).result =
        (upgrade env role helmValues existing.Spec.ClusterSize
          (env.NewCoherenceInternalSpec cluster role)).result) := by
  have hc := upgrade_trace_no_calls env role helmValues existing.Spec.ClusterSize
    (env.NewCoherenceInternalSpec cluster role)
  have htrace : (updateRole env cluster role helmValues).trace =
      Effect.callUpgrade existing.Spec.ClusterSize (env.NewCoherenceInternalSpec cluster role) ::
        (upgrade env role helmValues existing.Spec.ClusterSize
          (env.NewCoherenceInternalSpec cluster role)).trace := by
    unfold updateRole
    simp only [hdec, hlt, hup, if_true]
    cases (upgrade env role helmValues existing.Spec.ClusterSize
      (env.NewCoherenceInternalSpec cluster role)).err <;> rfl
  refine ⟨htrace, ?_, ?_, ?_, ?_⟩
  · rw [htrace]
    simp [Effect.isUpgradeCall, hc.1]
  · rw [htrace]
    simp [Effect.isScaleCall, hc.2]
  · intro hnone
    unfold updateRole
    simp [hdec, hlt, hup, hnone]
  · intro e he
    unfold updateRole
    simp [hdec, hlt, hup, he]

/-- Witness of C4 on scenario C: stored replicas 2, desired 5, template changed. -/
theorem updateRole_scale_up_with_upgrade_witness :
    (2 : Int) < sampleEnv.GetReplicas (sampleRole 5).Spec ∧
    isUpgrade sampleEnv
      { Namespace := "ns", Name := "prod-storage",
        Spec := { ClusterSize := 2, Params := [("image", "coherence:0")] } }
      (sampleEnv.NewCoherenceInternalSpec sampleCluster (sampleRole 5)) = true ∧
    (updateRole sampleEnv sampleCluster (sampleRole 5)
      (sampleHelmValues 2 [("image", "coherence:0")])).trace.countP Effect.isUpgradeCall = 1 ∧
    (updateRole sampleEnv sampleCluster (sampleRole 5)
      (sampleHelmValues 2 [("image", "coherence:0")])).trace.countP Effect.isScaleCall = 0 ∧
    (updateRole sampleEnv sampleCluster (sampleRole 5)
      (sampleHelmValues 2 [("image", "coherence:0")])).result =
        { Requeue := true, RequeueAfter := 0 } ∧
    (updateRole sampleEnv sampleCluster (sampleRole 5)
      (sampleHelmValues 2 [("image", "coherence:0")])).err = none :=
  have h := updateRole_scale_up_with_upgrade sampleEnv sampleCluster (sampleRole 5)
    (sampleHelmValues 2 [("image", "coherence:0")])
    { Namespace := "ns", Name := "prod-storage",
      Spec := { ClusterSize := 2, Params := [("image", "coherence:0")] } }
    rfl (by decide) (by decide)
  ⟨by decide, by decide, h.2.1, h.2.2.1, h.2.2.2.1 (by decide)⟩

/-- Scale down: when the stored replica count is above the desired one, the only step of
`updateRole` is one invocation of `scale` with the desired replica count as target; the result
is Requeue=true with a nil error when `scale` returned no error and `isUpgrade` is true, and
otherwise the result and error of `scale` as they are. -/
theorem updateRole_scale_down (env : Env) (cluster : CoherenceCluster)
    (role : CoherenceRole) (helmValues : Unstructured) (existing : CoherenceInternal)
    (hdec : toCoherenceInternal env helmValues = Except.ok existing)
    (hgt : env.GetReplicas role.Spec < existing.Spec.ClusterSize) :
    (updateRole env cluster role helmValues).trace =
      [Effect.callScale (env.GetReplicas role.Spec) existing.Spec.ClusterSize] ∧
    (((env.scale role helmValues existing (env.GetReplicas role.Spec) existing.Spec.ClusterSize
          (findStatefulSet env role).toOption).err = none ∧
        isUpgrade env existing (env.NewCoherenceInternalSpec cluster role) = true) →
      (updateRole env cluster role helmValues).result = { Requeue := true, RequeueAfter := 0 } ∧
      (updateRole env cluster role helmValues).err = none) ∧
    (¬ ((env.scale role helmValues existing (env.GetReplicas role.Spec) existing.Spec.ClusterSize
          (findStatefulSet env role).toOption).err = none ∧
        isUpgrade env existing (env.NewCoherenceInternalSpec cluster role) = true) →
      (updateRole env cluster role helmValues).result =
        (env.scale role helmValues existing (env.GetReplicas role.Spec)
          existing.Spec.ClusterSize (findStatefulSet env role).toOption).result ∧
      (updateRole env cluster role helmValues).err =
        (env.scale role helmValues existing (env.GetReplicas role.Spec)
          existing.Spec.ClusterSize (findStatefulSet env role).toOption).err) := by
  have hnlt : ¬ existing.Spec.ClusterSize < env.GetReplicas role.Spec := not_lt.mpr hgt.le
  refine ⟨?_, ?_, ?_⟩
  · unfold updateRole
    simp only [hdec, hnlt, if_false, gt_iff_lt, hgt, if_true]
    split <;> rfl
  · intro h
    unfold updateRole
    simp [hdec, hnlt, hgt, h]
  · intro h
    unfold updateRole
    simp [hdec, hnlt, hgt, h]

/-- C5, the code on scenario D (stored replicas 5, desired 2, template unchanged, `scale`
returning the empty result and no error): one invocation of `scale` to 2 and none of `upgrade`,
but the result is Requeue=true, since `isUpgrade` is true on every input. -/
theorem updateRole_scale_down_unchanged_template_requeues :
    (sampleEnv.NewCoherenceInternalSpec sampleCluster (sampleRole 2)).Params = mergedParams ∧
    sampleEnv.scale (sampleRole 2) (sampleHelmValues 5 mergedParams)
        { Namespace := "ns", Name := "prod-storage",
          Spec := { ClusterSize := 5, Params := mergedParams } } 2 5
        (findStatefulSet sampleEnv (sampleRole 2)).toOption =
      { result := { Requeue := false, RequeueAfter := 0 }, err := none, role := sampleRole 2 } ∧
    (updateRole sampleEnv sampleCluster (sampleRole 2) (sampleHelmValues 5 mergedParams)).trace =
      [Effect.callScale 2 5] ∧
    (updateRole sampleEnv sampleCluster (sampleRole 2) (sampleHelmValues 5 mergedParams)).result =
      { Requeue := true, RequeueAfter := 0 } ∧
    (updateRole sampleEnv sampleCluster (sampleRole 2) (sampleHelmValues 5 mergedParams)).err =
      none := by
  decide

/-! ## createRole -/

/-- The labels `CreateHelmValues` sets: the role label holds the role name, and the cluster label
holds the cluster name when the two label keys differ. -/
theorem CreateHelmValues_labels (env : Env) (cluster : CoherenceCluster) (role : CoherenceRole)
    (spec : SpecMap) :
    getLabel (CreateHelmValues env cluster role spec).Labels env.CoherenceRoleLabel =
      some (env.GetRoleName role.Spec) ∧
    (env.CoherenceClusterLabel ≠ env.CoherenceRoleLabel →
      getLabel (CreateHelmValues env cluster role spec).Labels env.CoherenceClusterLabel =
        some cluster.Name) := by
  constructor
  · by_cases h : env.CoherenceClusterLabel = env.CoherenceRoleLabel <;>
      simp [CreateHelmValues, setLabel, getLabel, List.find?, h]
  · intro h
    simp [CreateHelmValues, setLabel, getLabel, List.find?, h]

/-- C6. Create: with a positive desired replica count, when the merge, the owner reference and
the store create succeed, `createRole` issues one store create of a CoherenceInternal with the
namespace and name of the role, the merged spec as its spec, and the cluster and role labels;
then one status update and one SuccessfulCreate event. The role ends with status Created,
Replicas equal to the desired count and the selector built from cluster name and role name;
the result is Requeue=false with a nil error. -/
theorem createRole_creates (env : Env) (cluster : CoherenceCluster) (role : CoherenceRole)
    (spec : SpecMap)
    (hpos : 0 < env.GetReplicas role.Spec)
    (hmerge : env.NewCoherenceInternalSpecAsMap cluster role = Except.ok spec)
    (hown : env.setControllerReferenceErr (ownerOfCluster cluster)
      (CreateHelmValues env cluster role spec) = none)
    (hcreate : env.clientCreate
      { CreateHelmValues env cluster role spec with Owner := some (ownerOfCluster cluster) } =
        none) :
    (createRole env cluster role).trace =
      [Effect.create
          { CreateHelmValues env cluster role spec with Owner := some (ownerOfCluster cluster) }
          none,
        Effect.statusUpdate (createRole env cluster role).role
          (env.clientStatusUpdate (createRole env cluster role).role),
        Effect.event role.Namespace role.Name EventTypeNormal "SuccessfulCreate"
          (createMessage role.Name role.Name)] ∧
    (createRole env cluster role).trace.countP Effect.isCreate = 1 ∧
    (createRole env cluster role).trace.countP Effect.isEvent = 1 ∧
    (CreateHelmValues env cluster role spec).Namespace = role.Namespace ∧
    (CreateHelmValues env cluster role spec).Name = role.Name ∧
    (CreateHelmValues env cluster role spec).Spec = some spec ∧
    getLabel (CreateHelmValues env cluster role spec).Labels env.CoherenceRoleLabel =
      some (env.GetRoleName role.Spec) ∧
    (env.CoherenceClusterLabel ≠ env.CoherenceRoleLabel →
      getLabel (CreateHelmValues env cluster role spec).Labels env.CoherenceClusterLabel =
        some cluster.Name) ∧
    (createRole env cluster role).role =
      { role with Status := { role.Status with
          Status := RoleStatus.Created
          Replicas := env.GetReplicas role.Spec
          Selector := "coherenceCluster=" ++ cluster.Name ++ ",coherenceRole=" ++
            env.GetRoleName role.Spec } } ∧
    (createRole env cluster role).result = { Requeue := false, RequeueAfter := 0 } ∧
    (createRole env cluster role).err = none := by
  have hn : ¬ env.GetReplicas role.Spec ≤ 0 := not_le.mpr hpos
  have hl := CreateHelmValues_labels env cluster role spec
  have hout : createRole env cluster role =
      { result := { Requeue := false, RequeueAfter := 0 }, err := none,
        role := { role with Status := { role.Status with
          Status := RoleStatus.Created
          Replicas := env.GetReplicas role.Spec
          Selector := selectorTemplate cluster.Name (env.GetRoleName role.Spec) } },
        trace := [Effect.create
            { CreateHelmValues env cluster role spec with Owner := some (ownerOfCluster cluster) }
            none,
          Effect.statusUpdate { role with Status := { role.Status with
              Status := RoleStatus.Created
              Replicas := env.GetReplicas role.Spec
              Selector := selectorTemplate cluster.Name (env.GetRoleName role.Spec) } }
            (env.clientStatusUpdate { role with Status := { role.Status with
              Status := RoleStatus.Created
              Replicas := env.GetReplicas role.Spec
              Selector := selectorTemplate cluster.Name (env.GetRoleName role.Spec) } }),
          Effect.event role.Namespace role.Name EventTypeNormal eventReasonCreated
            (createMessage
              { CreateHelmValues env cluster role spec with
                Owner := some (ownerOfCluster cluster) }.Name role.Name)] } := by
    unfold createRole
    simp only [hn, if_false, hmerge, SetControllerReference, hown, hcreate]
  rw [hout]
  refine ⟨?_, ?_, ?_, rfl, rfl, rfl, hl.1, hl.2, ?_, rfl, rfl⟩
  · simp [eventReasonCreated, CreateHelmValues, CreateEmptyHelmValues]
  · simp [Effect.isCreate]
  · simp [Effect.isEvent]
  · simp [selectorTemplate]

/-- Witness of C6 on scenario A: no stored spec, desired replicas 3. -/
theorem createRole_creates_witness :
    0 < sampleEnv.GetReplicas (sampleRole 3).Spec ∧
    (createRole sampleEnv sampleCluster (sampleRole 3)).trace.countP Effect.isCreate = 1 ∧
    (createRole sampleEnv sampleCluster (sampleRole 3)).trace.countP Effect.isEvent = 1 ∧
    (createRole sampleEnv sampleCluster (sampleRole 3)).role.Status =
      { Status := RoleStatus.Created, Replicas := 3, CurrentReplicas := 0, ReadyReplicas := 0,
        Selector := "coherenceCluster=prod,coherenceRole=storage" } ∧
    (createRole sampleEnv sampleCluster (sampleRole 3)).result =
      { Requeue := false, RequeueAfter := 0 } ∧
    (createRole sampleEnv sampleCluster (sampleRole 3)).err = none :=
  have h := createRole_creates sampleEnv sampleCluster (sampleRole 3)
    { fields := { ClusterSize := 3, Params := mergedParams } } (by decide) rfl rfl rfl
  ⟨by decide, h.2.1, h.2.2.1, by rw [h.2.2.2.2.2.2.2.2.1]; decide, h.2.2.2.2.2.2.2.2.2.1,
    h.2.2.2.2.2.2.2.2.2.2⟩

/-- C7. Nothing to create: with a desired replica count of 0, `createRole` returns the empty
result and a nil error, leaves the role as it is and has no effect on the store or the event
recorder. -/
theorem createRole_nothing_to_create (env : Env) (cluster : CoherenceCluster)
    (role : CoherenceRole) (h0 : env.GetReplicas role.Spec = 0) :
    createRole env cluster role =
      { result := { Requeue := false, RequeueAfter := 0 }, err := none, role := role,
        trace := [] } := by
  unfold createRole
  simp [h0, Result.empty]

/-- Witness of C7 on scenario F: no stored spec, desired replicas 0. -/
theorem createRole_nothing_to_create_witness :
    sampleEnv.GetReplicas (sampleRole 0).Spec = 0 ∧
    createRole sampleEnv sampleCluster (sampleRole 0) =
      { result := { Requeue := false, RequeueAfter := 0 }, err := none, role := sampleRole 0,
        trace := [] } :=
  ⟨by decide, createRole_nothing_to_create sampleEnv sampleCluster (sampleRole 0) (by decide)⟩

/-! ## updateRole: upgrade in place -/

/-- C8. In-place upgrade: when the stored replica count equals the desired one and `isUpgrade`
is true, `updateRole` invokes `upgrade` once and `scale` never; when serialization and the store
update succeed, the spec of the CoherenceInternal is replaced by the whole merged spec, the one
write of a CoherenceInternal carries the stored replica count (the merge giving the desired
replica count as ClusterSize), the status of the role becomes RollingUpgrade, one
SuccessfulUpdate event is emitted and the result is Requeue=false with a nil error. -/
theorem updateRole_upgrade_in_place (env : Env) (cluster : CoherenceCluster)
    (role : CoherenceRole) (helmValues : Unstructured) (existing : CoherenceInternal)
    (hdec : toCoherenceInternal env helmValues = Except.ok existing)
    (heq : existing.Spec.ClusterSize = env.GetReplicas role.Spec)
    (hup : isUpgrade env existing (env.NewCoherenceInternalSpec cluster role) = true)
    (hmerge : (env.NewCoherenceInternalSpec cluster role).ClusterSize =
      env.GetReplicas role.Spec)
    (hm : env.marshalErr (env.NewCoherenceInternalSpec cluster role) = none)
    (hupd : env.clientUpdate
      { helmValues with Spec := some { fields := env.NewCoherenceInternalSpec cluster role } } =
        none) :
    (updateRole env cluster role helmValues).trace =
      [Effect.callUpgrade existing.Spec.ClusterSize (env.NewCoherenceInternalSpec cluster role),
        Effect.update
          { helmValues with Spec := some { fields := env.NewCoherenceInternalSpec cluster role } }
          none,
        Effect.updateRole (updateRole env cluster role helmValues).role
          (env.clientUpdateRole (updateRole env cluster role helmValues).role),
        Effect.event role.Namespace role.Name EventTypeNormal "SuccessfulUpdate"
          (updateMessage role.Name role.Name)] ∧
    (updateRole env cluster role helmValues).trace.countP Effect.isUpgradeCall = 1 ∧
    (updateRole env cluster role helmValues).trace.countP Effect.isScaleCall = 0 ∧
    (updateRole env cluster role helmValues).trace.countP Effect.isEvent = 1 ∧
    (updateRole env cluster role helmValues).trace.filterMap Effect.storedClusterSize =
      [existing.Spec.ClusterSize] ∧
    (updateRole env cluster role helmValues).role =
      { role with Status := { role.Status with Status := RoleStatus.RollingUpgrade } } ∧
    (updateRole env cluster role helmValues).result = { Requeue := false, RequeueAfter := 0 } ∧
    (updateRole env cluster role helmValues).err = none := by
  have hnlt : ¬ existing.Spec.ClusterSize < env.GetReplicas role.Spec := by
    rw [heq]; exact lt_irrefl _
  have hngt : ¬ existing.Spec.ClusterSize > env.GetReplicas role.Spec := by
    rw [heq]; exact lt_irrefl _
  have hout : updateRole env cluster role helmValues =
      { result := { Requeue := false, RequeueAfter := 0 }, err := none,
        role := { role with Status := { role.Status with Status := RoleStatus.RollingUpgrade } },
        trace :=
          [Effect.callUpgrade existing.Spec.ClusterSize
              (env.NewCoherenceInternalSpec cluster role),
            Effect.update
              { helmValues with
                Spec := some { fields := env.NewCoherenceInternalSpec cluster role } }
              none,
            Effect.updateRole
              { role with Status := { role.Status with Status := RoleStatus.RollingUpgrade } }
              (env.clientUpdateRole
                { role with Status := { role.Status with Status := RoleStatus.RollingUpgrade } }),
            Effect.event role.Namespace role.Name EventTypeNormal eventReasonUpdated
              (updateMessage role.Name role.Name)] } := by
    unfold updateRole
    simp only [hdec, hnlt, hngt, if_false, hup, if_true, upgrade,
      CoherenceInternalSpecAsMapFromSpec, hm, hupd]
  rw [hout]
  refine ⟨?_, ?_, ?_, ?_, ?_, rfl, rfl, rfl⟩
  · simp [eventReasonUpdated]
  · simp [Effect.isUpgradeCall]
  · simp [Effect.isScaleCall]
  · simp [Effect.isEvent]
  · simp [Effect.storedClusterSize, hmerge, heq]

/-- Witness of C8 on scenario B: stored replicas 3, desired 3, template changed. -/
theorem updateRole_upgrade_in_place_witness :
    (3 : Int) = sampleEnv.GetReplicas (sampleRole 3).Spec ∧
    isUpgrade sampleEnv
      { Namespace := "ns", Name := "prod-storage",
        Spec := { ClusterSize := 3, Params := [("image", "coherence:0")] } }
      (sampleEnv.NewCoherenceInternalSpec sampleCluster (sampleRole 3)) = true ∧
    (updateRole sampleEnv sampleCluster (sampleRole 3)
      (sampleHelmValues 3 [("image", "coherence:0")])).trace =
      [Effect.callUpgrade 3 { ClusterSize := 3, Params := mergedParams },
        Effect.update (sampleHelmValues 3 mergedParams) none,
        Effect.updateRole
          { sampleRole 3 with Status := { emptyStatus with Status := RoleStatus.RollingUpgrade } }
          none,
        Effect.event "ns" "prod-storage" "Normal" "SuccessfulUpdate"
          "updated CoherenceInternal prod-storage from CoherenceRole prod-storage successful"] ∧
    (updateRole sampleEnv sampleCluster (sampleRole 3)
      (sampleHelmValues 3 [("image", "coherence:0")])).trace.filterMap
        Effect.storedClusterSize = [3] ∧
    (updateRole sampleEnv sampleCluster (sampleRole 3)
      (sampleHelmValues 3 [("image", "coherence:0")])).result =
      { Requeue := false, RequeueAfter := 0 } ∧
    (updateRole sampleEnv sampleCluster (sampleRole 3)
      (sampleHelmValues 3 [("image", "coherence:0")])).err = none :=
  have h := updateRole_upgrade_in_place sampleEnv sampleCluster (sampleRole 3)
    (sampleHelmValues 3 [("image", "coherence:0")])
    { Namespace := "ns", Name := "prod-storage",
      Spec := { ClusterSize := 3, Params := [("image", "coherence:0")] } }
    rfl (by decide) (by decide) (by decide) rfl rfl
  ⟨by decide, by decide, by rw [h.1]; decide, h.2.2.2.2.1, h.2.2.2.2.2.2.1, h.2.2.2.2.2.2.2⟩

/-! ## Error paths -/

/-- Without a role, `failed` touches nothing: no status, no store call, no event. -/
theorem failed_without_role (env : Env) (err : Option GoError) (msg : String) (requeue : Bool) :
    failed env err none msg requeue =
      { result := { Requeue := requeue, RequeueAfter := 0 }, err := none, role := none,
        trace := [] } := by
  cases requeue <;> simp [failed]

/-- With a role, `failed` sets the status to Failed, updates the status in the store and sends
one event with reason `failed`. -/
theorem failed_with_role (env : Env) (err : Option GoError) (role : CoherenceRole)
    (msg : String) (requeue : Bool) :
    failed env err (some role) msg requeue =
      { result := { Requeue := requeue, RequeueAfter := 0 }, err := none,
        role := some { role with Status := { role.Status with Status := RoleStatus.Failed } },
        trace :=
          [Effect.statusUpdate
              { role with Status := { role.Status with Status := RoleStatus.Failed } }
              (env.clientStatusUpdate
                { role with Status := { role.Status with Status := RoleStatus.Failed } }),
            Effect.event role.Namespace role.Name EventTypeNormal "failed" msg] } := by
  cases requeue <;> simp [failed, eventReasonFailed]

/-- C9 as stated fails: with 3 desired replicas and a merge that returns an error, the status of
the role after `createRole` is not Failed. -/
theorem createRole_merge_error_status_not_failed :
    ¬ (∀ (env : Env) (cluster : CoherenceCluster) (role : CoherenceRole) (err : GoError),
        0 < env.GetReplicas role.Spec →
        env.NewCoherenceInternalSpecAsMap cluster role = Except.error err →
        (createRole env cluster role).role.Status.Status = RoleStatus.Failed ∧
        (createRole env cluster role).trace.countP Effect.isCreate = 0 ∧
        (createRole env cluster role).result.Requeue = true) := by
  intro h
  have h1 := (h failingMergeEnv sampleCluster (sampleRole 3) sampleError (by decide) rfl).1
  exact absurd h1 (by decide)

/-- C9, amended. When the merge returns an error (desired replicas positive), `createRole`
hands the error handler a nil role: the role and its status are left as they are, nothing is
written to the store, no event is emitted, and the result is Requeue=true with a nil error. -/
theorem createRole_merge_error_requeues (env : Env) (cluster : CoherenceCluster)
    (role : CoherenceRole) (err : GoError)
    (hpos : 0 < env.GetReplicas role.Spec)
    (hmerge : env.NewCoherenceInternalSpecAsMap cluster role = Except.error err) :
    createRole env cluster role =
      { result := { Requeue := true, RequeueAfter := 0 }, err := none, role := role,
        trace := [] } := by
  have hn : ¬ env.GetReplicas role.Spec ≤ 0 := not_le.mpr hpos
  unfold createRole
  simp [hn, hmerge, handleErrAndRequeue, failed_without_role, Outcome.ofFailed]

/-- Witness of the amended C9: 3 desired replicas, failing merge. -/
theorem createRole_merge_error_requeues_witness :
    0 < failingMergeEnv.GetReplicas (sampleRole 3).Spec ∧
    failingMergeEnv.NewCoherenceInternalSpecAsMap sampleCluster (sampleRole 3) =
      Except.error sampleError ∧
    createRole failingMergeEnv sampleCluster (sampleRole 3) =
      { result := { Requeue := true, RequeueAfter := 0 }, err := none, role := sampleRole 3,
        trace := [] } :=
  ⟨by decide, rfl,
    createRole_merge_error_requeues failingMergeEnv sampleCluster (sampleRole 3) sampleError
      (by decide) rfl⟩

/-- A failed store create aborts `createRole`: no status update, no event, Requeue=true. -/
theorem createRole_create_error_aborts (env : Env) (cluster : CoherenceCluster)
    (role : CoherenceRole) (spec : SpecMap) (err : GoError)
    (hpos : 0 < env.GetReplicas role.Spec)
    (hmerge : env.NewCoherenceInternalSpecAsMap cluster role = Except.ok spec)
    (hown : env.setControllerReferenceErr (ownerOfCluster cluster)
      (CreateHelmValues env cluster role spec) = none)
    (hcreate : env.clientCreate
      { CreateHelmValues env cluster role spec with Owner := some (ownerOfCluster cluster) } =
        some err) :
    createRole env cluster role =
      { result := { Requeue := true, RequeueAfter := 0 }, err := none, role := role,
        trace := [Effect.create
          { CreateHelmValues env cluster role spec with Owner := some (ownerOfCluster cluster) }
          (some err)] } := by
  have hn : ¬ env.GetReplicas role.Spec ≤ 0 := not_le.mpr hpos
  unfold createRole
  simp [hn, hmerge, SetControllerReference, hown, hcreate, handleErrAndRequeue,
    failed_without_role, Outcome.ofFailed]

/-- A failed store update aborts `upgrade`: no write of the role, no event, the error is
returned. -/
theorem upgrade_update_error_aborts (env : Env) (role : CoherenceRole)
    (existingRole : Unstructured) (replicas : Int) (desiredRole : CoherenceInternalSpec)
    (err : GoError)
    (hm : env.marshalErr desiredRole = none)
    (hupd : env.clientUpdate { existingRole with Spec := some { fields := desiredRole } } =
      some err) :
    (upgrade env role existingRole replicas desiredRole).err = some err ∧
    (upgrade env role existingRole replicas desiredRole).result =
      { Requeue := false, RequeueAfter := 0 } ∧
    (upgrade env role existingRole replicas desiredRole).role = role ∧
    (upgrade env role existingRole replicas desiredRole).trace =
      [Effect.update { existingRole with Spec := some { fields := desiredRole } } (some err)] := by
  unfold upgrade CoherenceInternalSpecAsMapFromSpec
  simp [hm, hupd, Result.empty]

/-- C10, the code when the write of the role fails: in `createRole` the status update returns an
error and in `upgrade` the update of the role returns an error; both go on to emit the success
event and return Requeue=false with a nil error. -/
theorem role_write_error_is_swallowed :
    (createRole failingRoleWriteEnv sampleCluster (sampleRole 3)).trace.drop 1 =
      [Effect.statusUpdate (createRole failingRoleWriteEnv sampleCluster (sampleRole 3)).role
          (some sampleError),
        Effect.event "ns" "prod-storage" "Normal" "SuccessfulCreate"
          "created CoherenceInternal 'prod-storage' from CoherenceRole 'prod-storage' successful"] ∧
    (createRole failingRoleWriteEnv sampleCluster (sampleRole 3)).result =
      { Requeue := false, RequeueAfter := 0 } ∧
    (createRole failingRoleWriteEnv sampleCluster (sampleRole 3)).err = none ∧
    (upgrade failingRoleWriteEnv (sampleRole 3) (sampleHelmValues 3 [("image", "coherence:0")]) 3
        { ClusterSize := 3, Params := mergedParams }).trace.drop 1 =
      [Effect.updateRole
          (upgrade failingRoleWriteEnv (sampleRole 3)
            (sampleHelmValues 3 [("image", "coherence:0")]) 3
            { ClusterSize := 3, Params := mergedParams }).role
          (some sampleError),
        Effect.event "ns" "prod-storage" "Normal" "SuccessfulUpdate"
          "updated CoherenceInternal prod-storage from CoherenceRole prod-storage successful"] ∧
    (upgrade failingRoleWriteEnv (sampleRole 3) (sampleHelmValues 3 [("image", "coherence:0")]) 3
        { ClusterSize := 3, Params := mergedParams }).result =
      { Requeue := false, RequeueAfter := 0 } ∧
    (upgrade failingRoleWriteEnv (sampleRole 3) (sampleHelmValues 3 [("image", "coherence:0")]) 3
        { ClusterSize := 3, Params := mergedParams }).err = none := by
  decide

/-! ## Reconcile: the lookups -/

/-- C11. Orphaned role: when the role is found and the lookup of its cluster returns NotFound,
`Reconcile` sets the status of the role to Failed, updates the status in the store, emits one
event for the role whose message names the role and the missing cluster, neither creates nor
updates a CoherenceInternal, and returns Requeue=false with a nil error. -/
theorem Reconcile_orphaned_role (env : Env) (request : Request) (role : CoherenceRole)
    (err : GoError)
    (hrole : env.clientGetRole request.Namespace request.Name = Except.ok role)
    (hcluster : env.clientGetCluster request.Namespace (env.GetCoherenceClusterName role) =
      Except.error err)
    (hnf : err.notFound = true) :
    Reconcile env request =
      { result := { Requeue := false, RequeueAfter := 0 }, err := none,
        role := some { role with Status := { role.Status with Status := RoleStatus.Failed } },
        trace :=
          [Effect.statusUpdate
              { role with Status := { role.Status with Status := RoleStatus.Failed } }
              (env.clientStatusUpdate
                { role with Status := { role.Status with Status := RoleStatus.Failed } }),
            Effect.event role.Namespace role.Name EventTypeNormal "failed"
              ("invalid CoherenceRole '" ++ role.Name ++ "' cannot find parent CoherenceCluster '"
                ++ env.GetCoherenceClusterName role ++ "'")] } ∧
    (Reconcile env request).trace.countP Effect.isInternalWrite = 0 ∧
    (Reconcile env request).trace.countP Effect.isEvent = 1 := by
  have hout : Reconcile env request =
      { result := { Requeue := false, RequeueAfter := 0 }, err := none,
        role := some { role with Status := { role.Status with Status := RoleStatus.Failed } },
        trace :=
          [Effect.statusUpdate
              { role with Status := { role.Status with Status := RoleStatus.Failed } }
              (env.clientStatusUpdate
                { role with Status := { role.Status with Status := RoleStatus.Failed } }),
            Effect.event role.Namespace role.Name EventTypeNormal "failed"
              ("invalid CoherenceRole '" ++ role.Name ++ "' cannot find parent CoherenceCluster '"
                ++ env.GetCoherenceClusterName role ++ "'")] } := by
    unfold Reconcile
    simp only [hrole, hcluster, hnf, if_true, handleErrAndFinish, failed_with_role,
      ReconcileOutcome.ofFailed, invalidRoleEventMessage]
  rw [hout]
  refine ⟨rfl, ?_, ?_⟩
  · simp [Effect.isInternalWrite]
  · simp [Effect.isEvent]

/-- Witness of C11: the store holds the sample role and no cluster. -/
theorem Reconcile_orphaned_role_witness :
    (Reconcile { sampleEnv with clientGetRole := fun _ _ => Except.ok (sampleRole 3) }
      sampleRequest).result = { Requeue := false, RequeueAfter := 0 } ∧
    (Reconcile { sampleEnv with clientGetRole := fun _ _ => Except.ok (sampleRole 3) }
      sampleRequest).role =
      some { sampleRole 3 with Status := { emptyStatus with Status := RoleStatus.Failed } } ∧
    (Reconcile { sampleEnv with clientGetRole := fun _ _ => Except.ok (sampleRole 3) }
      sampleRequest).trace.countP Effect.isInternalWrite = 0 ∧
    (Reconcile { sampleEnv with clientGetRole := fun _ _ => Except.ok (sampleRole 3) }
      sampleRequest).trace.countP Effect.isEvent = 1 :=
  have h := Reconcile_orphaned_role
    { sampleEnv with clientGetRole := fun _ _ => Except.ok (sampleRole 3) } sampleRequest
    (sampleRole 3) { msg := "cluster prod not found", notFound := true } rfl rfl rfl
  ⟨by rw [h.1], by rw [h.1]; rfl, h.2.1, h.2.2⟩

/-- C12. Deleted role: when the lookup of the role fails, `Reconcile` writes nothing to the
store and emits no event; it returns Requeue=false with a nil error when the error is NotFound
and Requeue=true with a nil error for any other error. -/
theorem Reconcile_role_lookup_error (env : Env) (request : Request) (err : GoError)
    (hrole : env.clientGetRole request.Namespace request.Name = Except.error err) :
    (err.notFound = true →
      Reconcile env request =
        { result := { Requeue := false, RequeueAfter := 0 }, err := none, role := none,
          trace := [] }) ∧
    (err.notFound = false →
      Reconcile env request =
        { result := { Requeue := true, RequeueAfter := 0 }, err := none, role := none,
          trace := [] }) := by
  constructor
  · intro hnf
    unfold Reconcile
    simp [hrole, hnf]
  · intro hnf
    unfold Reconcile
    simp [hrole, hnf, handleErrAndRequeue, failed_without_role, ReconcileOutcome.ofFailed]

/-- Witness of C12: a store without the role, and a store whose lookup fails otherwise. -/
theorem Reconcile_role_lookup_error_witness :
    Reconcile sampleEnv sampleRequest =
      { result := { Requeue := false, RequeueAfter := 0 }, err := none, role := none,
        trace := [] } ∧
    Reconcile { sampleEnv with clientGetRole := fun _ _ => Except.error sampleError }
        sampleRequest =
      { result := { Requeue := true, RequeueAfter := 0 }, err := none, role := none,
        trace := [] } :=
  ⟨(Reconcile_role_lookup_error sampleEnv sampleRequest
      { msg := "role prod-storage not found", notFound := true } rfl).1 rfl,
    (Reconcile_role_lookup_error
      { sampleEnv with clientGetRole := fun _ _ => Except.error sampleError } sampleRequest
      sampleError rfl).2 rfl⟩

/-! ## Ownership -/

/-- Whenever `createRole` reaches the store create, the object it sends carries a controller
reference to the cluster. -/
theorem createRole_owner_is_cluster (env : Env) (cluster : CoherenceCluster)
    (role : CoherenceRole) (obj : Unstructured) (err : Option GoError)
    (h : Effect.create obj err ∈ (createRole env cluster role).trace) :
    obj.Owner = some (ownerOfCluster cluster) := by
  unfold createRole at h
  by_cases hr : env.GetReplicas role.Spec ≤ 0
  · simp [hr] at h
  · cases hm : env.NewCoherenceInternalSpecAsMap cluster role with
    | error e =>
      simp [hr, hm, Outcome.ofFailed, handleErrAndRequeue, failed_without_role] at h
    | ok spec =>
      cases ho : env.setControllerReferenceErr (ownerOfCluster cluster)
          (CreateHelmValues env cluster role spec) with
      | some e =>
        simp [hr, hm, SetControllerReference, ho, Outcome.ofFailed, handleErrAndRequeue,
          failed_without_role] at h
      | none =>
        cases hc : env.clientCreate
            { CreateHelmValues env cluster role spec with
              Owner := some (ownerOfCluster cluster) } with
        | some e =>
          simp [hr, hm, SetControllerReference, ho, hc, Outcome.ofFailed, handleErrAndRequeue,
            failed_without_role] at h
          rw [h.1]
        | none =>
          simp [hr, hm, SetControllerReference, ho, hc] at h
          rw [h.1]

/-- C13, the code on scenario A: the CoherenceInternal that `createRole` creates for the sample
role carries a controller reference to the CoherenceCluster `prod`, not to the CoherenceRole
`prod-storage` being reconciled. -/
theorem createRole_owner_is_not_role :
    (createRole sampleEnv sampleCluster (sampleRole 3)).trace.head? =
      some (Effect.create
        { Namespace := "ns", Name := "prod-storage",
          Labels := [("coherenceCluster", "prod"), ("coherenceRole", "storage")],
          Owner := some { Kind := "CoherenceCluster", Name := "prod" },
          Spec := some { fields := { ClusterSize := 3, Params := mergedParams } } } none) ∧
    ownerOfRole (sampleRole 3) = { Kind := "CoherenceRole", Name := "prod-storage" } ∧
    (some (ownerOfCluster sampleCluster) : Option OwnerReference) ≠
      some (ownerOfRole (sampleRole 3)) := by
  decide

/-! ## The status sync -/

/-- With the generated `DeepCopy` (pointer result) `updateRole` never reaches its status sync:
whatever the input, it makes no `Status().Update` call. -/
theorem updateRole_never_updates_status (env : Env) (hp : env.deepCopyIsPointer = true)
    (cluster : CoherenceCluster) (role : CoherenceRole) (helmValues : Unstructured) :
    (updateRole env cluster role helmValues).trace.countP Effect.isStatusUpdate = 0 := by
  have hu : ∀ r n d, (upgrade env r helmValues n d).trace.countP Effect.isStatusUpdate = 0 := by
    intro r n d
    unfold upgrade CoherenceInternalSpecAsMapFromSpec
    cases env.marshalErr d with
    | some e => simp
    | none =>
      simp only []
      cases env.clientUpdate { helmValues with Spec := some { fields := d } } with
      | some e => simp [Effect.isStatusUpdate]
      | none => simp [Effect.isStatusUpdate]
  unfold updateRole
  cases hdec : toCoherenceInternal env helmValues with
  | error e => simp [Outcome.ofFailed, handleErrAndRequeue, failed_without_role]
  | ok existing =>
    simp only [isUpgrade_of_pointer_copy env existing _ hp, if_true]
    by_cases hlt : existing.Spec.ClusterSize < env.GetReplicas role.Spec
    · simp only [hlt, if_true]
      cases (upgrade env role helmValues existing.Spec.ClusterSize
          (env.NewCoherenceInternalSpec cluster role)).err with
      | none => simp [Effect.isStatusUpdate, hu]
      | some e => simp [Effect.isStatusUpdate, hu]
    · simp only [hlt, if_false]
      by_cases hgt : existing.Spec.ClusterSize > env.GetReplicas role.Spec
      · simp only [hgt, if_true]
        split <;> simp [Effect.isStatusUpdate]
      · simp [hgt, Effect.isStatusUpdate, hu]

/-! ## Independence of the recorded status: the operations -/

/-- `createRole` on two roles that differ at most in their Status: same result, same error and
the same steps up to the Status written. -/
theorem createRole_status_blind (env : Env) (hb : StatusBlind env) (cluster : CoherenceCluster)
    (r1 r2 : CoherenceRole) (h : SameButStatus r1 r2) :
    (createRole env cluster r1).result = (createRole env cluster r2).result ∧
    (createRole env cluster r1).err = (createRole env cluster r2).err ∧
    (createRole env cluster r1).trace.map Effect.withoutStatus =
      (createRole env cluster r2).trace.map Effect.withoutStatus := by
  have hm := hb.mergeAsMap cluster r1 r2 h
  obtain ⟨ns1, name1, spec1, st1⟩ := r1
  obtain ⟨ns2, name2, spec2, st2⟩ := r2
  obtain ⟨hns, hname, hspec⟩ := h
  simp only at hns hname hspec
  subst hns hname hspec
  unfold createRole
  simp only [hm]
  by_cases hr : env.GetReplicas spec1 ≤ 0
  · simp [hr]
  · simp only [hr, if_false]
    cases env.NewCoherenceInternalSpecAsMap cluster
        { Namespace := ns1, Name := name1, Spec := spec1, Status := st2 } with
    | error e =>
      simp [Outcome.ofFailed, handleErrAndRequeue, failed_without_role]
    | ok sp =>
      simp only [SetControllerReference, CreateHelmValues, CreateEmptyHelmValues]
      cases env.setControllerReferenceErr (ownerOfCluster cluster)
          { Namespace := ns1, Name := name1,
            Labels := setLabel (setLabel [] env.CoherenceClusterLabel cluster.Name)
              env.CoherenceRoleLabel (env.GetRoleName spec1),
            Owner := none, Spec := some sp } with
      | some e =>
        simp [Outcome.ofFailed, handleErrAndRequeue, failed_without_role]
      | none =>
        simp only []
        cases env.clientCreate
            { Namespace := ns1, Name := name1,
              Labels := setLabel (setLabel [] env.CoherenceClusterLabel cluster.Name)
                env.CoherenceRoleLabel (env.GetRoleName spec1),
              Owner := some (ownerOfCluster cluster), Spec := some sp } with
        | some e =>
          simp [Outcome.ofFailed, handleErrAndRequeue, failed_without_role,
            Effect.withoutStatus]
        | none =>
          simp [Effect.withoutStatus]

/-- `upgrade` on two roles that differ at most in their Status: same result, same error and the
same steps up to the Status written. -/
theorem upgrade_status_blind (env : Env) (r1 r2 : CoherenceRole) (h : SameButStatus r1 r2)
    (existingRole : Unstructured) (replicas : Int) (desiredRole : CoherenceInternalSpec) :
    (upgrade env r1 existingRole replicas desiredRole).result =
      (upgrade env r2 existingRole replicas desiredRole).result ∧
    (upgrade env r1 existingRole replicas desiredRole).err =
      (upgrade env r2 existingRole replicas desiredRole).err ∧
    (upgrade env r1 existingRole replicas desiredRole).trace.map Effect.withoutStatus =
      (upgrade env r2 existingRole replicas desiredRole).trace.map Effect.withoutStatus := by
  obtain ⟨ns1, name1, spec1, st1⟩ := r1
  obtain ⟨ns2, name2, spec2, st2⟩ := r2
  obtain ⟨hns, hname, hspec⟩ := h
  simp only at hns hname hspec
  subst hns hname hspec
  unfold upgrade CoherenceInternalSpecAsMapFromSpec
  cases env.marshalErr desiredRole with
  | some e => simp
  | none =>
    simp only []
    cases env.clientUpdate { existingRole with Spec := some { fields := desiredRole } } with
    | some e => simp [Effect.withoutStatus]
    | none => simp [Effect.withoutStatus]

/-- `updateRole`, with the generated `DeepCopy`, on two roles that differ at most in their
Status: same result, same error and the same steps up to the Status written. -/
theorem updateRole_status_blind (env : Env) (hp : env.deepCopyIsPointer = true)
    (hb : StatusBlind env) (cluster : CoherenceCluster)
    (r1 r2 : CoherenceRole) (h : SameButStatus r1 r2) (helmValues : Unstructured) :
    (updateRole env cluster r1 helmValues).result =
      (updateRole env cluster r2 helmValues).result ∧
    (updateRole env cluster r1 helmValues).err = (updateRole env cluster r2 helmValues).err ∧
    (updateRole env cluster r1 helmValues).trace.map Effect.withoutStatus =
      (updateRole env cluster r2 helmValues).trace.map Effect.withoutStatus := by
  have hmerge := hb.merge cluster r1 r2 h
  have hrep : env.GetReplicas r1.Spec = env.GetReplicas r2.Spec := by rw [h.2.2]
  have hfind : findStatefulSet env r1 = findStatefulSet env r2 := by
    unfold findStatefulSet
    rw [h.1, h.2.1]
  unfold updateRole
  cases hdec : toCoherenceInternal env helmValues with
  | error e =>
    simp [Outcome.ofFailed, handleErrAndRequeue, failed_without_role]
  | ok existing =>
    simp only [hmerge, hrep, hfind, isUpgrade_of_pointer_copy env existing _ hp, if_true]
    have hu := upgrade_status_blind env r1 r2 h helmValues existing.Spec.ClusterSize
      (env.NewCoherenceInternalSpec cluster r2)
    have hs := hb.scale r1 r2 helmValues existing (env.GetReplicas r2.Spec)
      existing.Spec.ClusterSize (findStatefulSet env r2).toOption h
    obtain ⟨hures, huerr, humap⟩ := hu
    obtain ⟨hsres, hserr⟩ := hs
    by_cases hlt : existing.Spec.ClusterSize < env.GetReplicas r2.Spec
    · simp only [hlt, if_true]
      rw [huerr]
      cases hue : (upgrade env r2 helmValues existing.Spec.ClusterSize
          (env.NewCoherenceInternalSpec cluster r2)).err with
      | none => simp [Effect.withoutStatus, humap]
      | some e => simp [Effect.withoutStatus, humap, hures]
    · simp only [hlt, if_false]
      by_cases hgt : existing.Spec.ClusterSize > env.GetReplicas r2.Spec
      · simp only [hgt, if_true, hserr]
        by_cases hc : (env.scale r2 helmValues existing (env.GetReplicas r2.Spec)
            existing.Spec.ClusterSize (findStatefulSet env r2).toOption).err = none
        · simp [hc, Effect.withoutStatus]
        · simp [hc, hsres, Effect.withoutStatus]
      · simp [hgt, Effect.withoutStatus, humap, hures, huerr]

/-! ## Independence of the recorded status: Reconcile -/

/-- Two traces that agree up to the Status written count the same number of steps of any kind
that does not look at the Status. -/
theorem countP_eq_of_withoutStatus (p : Effect → Bool)
    (hpw : ∀ e, p (Effect.withoutStatus e) = p e) (t1 t2 : List Effect)
    (h : t1.map Effect.withoutStatus = t2.map Effect.withoutStatus) :
    t1.countP p = t2.countP p := by
  have hc : p ∘ Effect.withoutStatus = p := funext hpw
  have h1 := List.countP_map p Effect.withoutStatus t1
  have h2 := List.countP_map p Effect.withoutStatus t2
  rw [hc] at h1 h2
  rw [← h1, ← h2, h]

/-- Two traces that agree up to the Status written hold the same writes of a CoherenceInternal. -/
theorem internalWrites_eq_of_withoutStatus (t1 t2 : List Effect)
    (h : t1.map Effect.withoutStatus = t2.map Effect.withoutStatus) :
    t1.filter Effect.isInternalWrite = t2.filter Effect.isInternalWrite := by
  have hg : (Option.guard fun e => Effect.isInternalWrite e = true) ∘ Effect.withoutStatus =
      Option.guard fun e => Effect.isInternalWrite e = true := by
    funext e
    cases e <;> simp [Option.guard, Effect.withoutStatus, Effect.isInternalWrite]
  have h1 := List.filterMap_map Effect.withoutStatus
    (Option.guard fun e => Effect.isInternalWrite e = true) t1
  have h2 := List.filterMap_map Effect.withoutStatus
    (Option.guard fun e => Effect.isInternalWrite e = true) t2
  rw [hg] at h1 h2
  rw [← List.filterMap_eq_filter, ← h1, ← h2, h]

/-- `Reconcile`, with the generated `DeepCopy`, on two stores that differ only in the Status of
the role: same result, same error and the same steps up to the Status written. -/
theorem Reconcile_status_blind_core (env : Env) (hp : env.deepCopyIsPointer = true)
    (hb : StatusBlind env)
    (get2 : String → String → Except GoError CoherenceRole) (request : Request)
    (hget : FetchAgree (env.clientGetRole request.Namespace request.Name)
      (get2 request.Namespace request.Name)) :
    (Reconcile env request).result =
      (Reconcile { env with clientGetRole := get2 } request).result ∧
    (Reconcile env request).err = (Reconcile { env with clientGetRole := get2 } request).err ∧
    (Reconcile env request).trace.map Effect.withoutStatus =
      (Reconcile { env with clientGetRole := get2 } request).trace.map
        Effect.withoutStatus := by
  have hc : ∀ c r, createRole { env with clientGetRole := get2 } c r = createRole env c r :=
    fun _ _ => rfl
  have hu : ∀ c r hv,
      updateRole { env with clientGetRole := get2 } c r hv = updateRole env c r hv :=
    fun _ _ _ => rfl
  have hf : ∀ e r m q, failed { env with clientGetRole := get2 } e r m q = failed env e r m q :=
    fun _ _ _ _ => rfl
  unfold Reconcile
  simp only [hc, hu, handleErrAndRequeue, handleErrAndFinish, hf, GetExistingHelmValues]
  cases h1 : env.clientGetRole request.Namespace request.Name with
  | error e1 =>
    cases h2 : get2 request.Namespace request.Name with
    | ok r2 => simp [FetchAgree, h1, h2] at hget
    | error e2 =>
      simp only [FetchAgree, h1, h2] at hget
      subst hget
      simp
  | ok r1 =>
    cases h2 : get2 request.Namespace request.Name with
    | error e2 => simp [FetchAgree, h1, h2] at hget
    | ok r2 =>
      simp only [FetchAgree, h1, h2] at hget
      have hname := hb.clusterName r1 r2 hget
      obtain ⟨hns, hnm, hsp⟩ := hget
      simp only [hname, hns, hnm]
      cases env.clientGetCluster request.Namespace (env.GetCoherenceClusterName r2) with
      | error e =>
        by_cases hnf : e.notFound = true
        · simp [hnf, failed_with_role, ReconcileOutcome.ofFailed, Effect.withoutStatus,
            hns, hnm, hsp]
        · simp [hnf, failed_with_role, ReconcileOutcome.ofFailed, Effect.withoutStatus,
            hns, hnm, hsp]
      | ok cluster =>
        simp only []
        cases env.clientGetHelmValues r2.Namespace r2.Name with
        | error e =>
          by_cases hnf : e.notFound = true
          · have hcr := createRole_status_blind env hb cluster r1 r2 ⟨hns, hnm, hsp⟩
            simp only [hnf, if_true, ReconcileOutcome.ofOutcome]
            exact hcr
          · simp [hnf, failed_with_role, ReconcileOutcome.ofFailed, Effect.withoutStatus,
              hns, hnm, hsp]
        | ok hv =>
          have hup := updateRole_status_blind env hp hb cluster r1 r2 ⟨hns, hnm, hsp⟩ hv
          simp only [ReconcileOutcome.ofOutcome]
          exact hup

/-- C15. Status is an output, not an input: two runs of `Reconcile` on stores that differ only
in the Status of the role (with the generated `DeepCopy`, and the functions declared outside
the controller file not reading the Status) return the same requeue directive and the same
error and take the same steps up to the Status written: the same CoherenceInternal written,
and as many creates, invocations of `scale`, invocations of `upgrade` and status updates. -/
theorem Reconcile_ignores_recorded_status (env : Env) (hp : env.deepCopyIsPointer = true)
    (hb : StatusBlind env)
    (get2 : String → String → Except GoError CoherenceRole) (request : Request)
    (hget : FetchAgree (env.clientGetRole request.Namespace request.Name)
      (get2 request.Namespace request.Name)) :
    (Reconcile env request).result =
      (Reconcile { env with clientGetRole := get2 } request).result ∧
    (Reconcile env request).err = (Reconcile { env with clientGetRole := get2 } request).err ∧
    (Reconcile env request).trace.map Effect.withoutStatus =
      (Reconcile { env with clientGetRole := get2 } request).trace.map Effect.withoutStatus ∧
    (Reconcile env request).trace.filter Effect.isInternalWrite =
      (Reconcile { env with clientGetRole := get2 } request).trace.filter
        Effect.isInternalWrite ∧
    (Reconcile env request).trace.countP Effect.isCreate =
      (Reconcile { env with clientGetRole := get2 } request).trace.countP Effect.isCreate ∧
    (Reconcile env request).trace.countP Effect.isScaleCall =
      (Reconcile { env with clientGetRole := get2 } request).trace.countP Effect.isScaleCall ∧
    (Reconcile env request).trace.countP Effect.isUpgradeCall =
      (Reconcile { env with clientGetRole := get2 } request).trace.countP
        Effect.isUpgradeCall ∧
    (Reconcile env request).trace.countP Effect.isStatusUpdate =
      (Reconcile { env with clientGetRole := get2 } request).trace.countP
        Effect.isStatusUpdate := by
  obtain ⟨hres, herr, hmap⟩ := Reconcile_status_blind_core env hp hb get2 request hget
  refine ⟨hres, herr, hmap, internalWrites_eq_of_withoutStatus _ _ hmap,
    countP_eq_of_withoutStatus _ ?_ _ _ hmap, countP_eq_of_withoutStatus _ ?_ _ _ hmap,
    countP_eq_of_withoutStatus _ ?_ _ _ hmap, countP_eq_of_withoutStatus _ ?_ _ _ hmap⟩
  · intro e; cases e <;> rfl
  · intro e; cases e <;> rfl
  · intro e; cases e <;> rfl
  · intro e; cases e <;> rfl

/-- In the sample worlds the functions that are handed the role read only its name and Spec. -/
theorem storedWorld_sample_statusBlind (role : CoherenceRole) (helmValues : Unstructured) :
    StatusBlind (storedWorld sampleEnv role helmValues) where
  clusterName := fun _ _ _ => rfl
  merge := fun c r1 r2 h => by
    simp [storedWorld, sampleEnv, h.2.2]
  mergeAsMap := fun c r1 r2 h => by
    simp [storedWorld, sampleEnv, h.2.2]
  scale := fun _ _ _ _ _ _ _ _ => ⟨rfl, rfl⟩

/-- Witness of C15: the store holds the sample cluster, a CoherenceInternal with 3 replicas and
an older template, and the sample role with 3 desired replicas, once with the settled Status
and once with the zero Status; both runs upgrade in place and neither updates the status. -/
theorem Reconcile_ignores_recorded_status_witness :
    (storedWorld sampleEnv settledRole
      (sampleHelmValues 3 [("image", "coherence:0")])).deepCopyIsPointer = true ∧
    FetchAgree
      ((storedWorld sampleEnv settledRole
        (sampleHelmValues 3 [("image", "coherence:0")])).clientGetRole "ns" "prod-storage")
      (Except.ok (sampleRole 3)) ∧
    settledRole.Status ≠ (sampleRole 3).Status ∧
    (Reconcile (storedWorld sampleEnv settledRole (sampleHelmValues 3 [("image", "coherence:0")]))
        sampleRequest).result =
      (Reconcile
        { storedWorld sampleEnv settledRole (sampleHelmValues 3 [("image", "coherence:0")]) with
          clientGetRole := fun _ _ => Except.ok (sampleRole 3) } sampleRequest).result ∧
    (Reconcile (storedWorld sampleEnv settledRole (sampleHelmValues 3 [("image", "coherence:0")]))
        sampleRequest).trace.map Effect.withoutStatus =
      (Reconcile
        { storedWorld sampleEnv settledRole (sampleHelmValues 3 [("image", "coherence:0")]) with
          clientGetRole := fun _ _ => Except.ok (sampleRole 3) } sampleRequest).trace.map
        Effect.withoutStatus ∧
    (Reconcile (storedWorld sampleEnv settledRole (sampleHelmValues 3 [("image", "coherence:0")]))
        sampleRequest).trace.filter Effect.isInternalWrite =
      [Effect.update (sampleHelmValues 3 mergedParams) none] ∧
    (Reconcile
        { storedWorld sampleEnv settledRole (sampleHelmValues 3 [("image", "coherence:0")]) with
          clientGetRole := fun _ _ => Except.ok (sampleRole 3) } sampleRequest).trace.filter
        Effect.isInternalWrite =
      [Effect.update (sampleHelmValues 3 mergedParams) none] :=
  have h := Reconcile_ignores_recorded_status
    (storedWorld sampleEnv settledRole (sampleHelmValues 3 [("image", "coherence:0")])) rfl
    (storedWorld_sample_statusBlind settledRole (sampleHelmValues 3 [("image", "coherence:0")]))
    (fun _ _ => Except.ok (sampleRole 3)) sampleRequest ⟨rfl, rfl, rfl⟩
  ⟨rfl, ⟨rfl, rfl, rfl⟩, by decide, h.1, h.2.2.1, by decide, by rw [← h.2.2.2.1]; decide⟩

end CoherenceRoleController
